import Mathlib

/-!
Verification of the `asphalt` application-lifecycle orchestrator
(`asphalt/core/application.py`) against its natural-language specification.

The embedding is shallow: Python dictionaries become association lists with
first-match lookup and in-place update (`dset` keeps the original key position,
like CPython `dict.update`), the `Application` object becomes a Lean structure,
`add_component` becomes a total function returning `Except`, and `run` becomes
a function from an environment (the outcomes of the external collaborator
calls: component `start` coroutines, the application hook, lifecycle-callback
dispatch, the serve loop) to a trace of the observable actions `run` performs.
-/

namespace Asphalt

/-! ## Python dictionaries as association lists -/

/-- First-match lookup in an association list (Python `d[k]` / `k in d`). -/
def dlookup {α : Type} (d : List (String × α)) (k : String) : Option α :=
  match d with
  | [] => none
  | (k0, v) :: rest => if k0 = k then some v else dlookup rest k

/-- `dset d k v` mirrors a Python dict assignment `d[k] = v`: if the key is
present the first binding's value is replaced in place, otherwise the binding
is appended at the end (CPython insertion-order semantics). -/
def dset {α : Type} (d : List (String × α)) (k : String) (v : α) :
    List (String × α) :=
  match d with
  | [] => [(k, v)]
  | (k0, v0) :: rest =>
      if k0 = k then (k0, v) :: rest else (k0, v0) :: dset rest k v

/-- Python `d.update(e)`: every binding of `e` is assigned into `d` in order. -/
def dictUpdate {α : Type} (d e : List (String × α)) : List (String × α) :=
  e.foldl (fun acc kv => dset acc kv.1 kv.2) d

/-- Last-match lookup: the value of the final binding of `k`, if any.  For a
list with no duplicate keys it coincides with `dlookup`. -/
def dlookupLast {α : Type} (e : List (String × α)) (k : String) : Option α :=
  match e with
  | [] => none
  | (k0, v) :: rest =>
      match dlookupLast rest k with
      | some v1 => some v1
      | none => if k0 = k then some v else none

theorem dlookup_dset {α : Type} (d : List (String × α)) (k k1 : String)
    (v : α) :
    dlookup (dset d k v) k1 = if k = k1 then some v else dlookup d k1 := by
  induction d with
  | nil =>
      simp [dset, dlookup]
  | cons hd tl ih =>
      obtain ⟨k0, v0⟩ := hd
      by_cases h0 : k0 = k
      · subst h0
        by_cases h1 : k0 = k1
        · subst h1
          simp [dset, dlookup]
        · simp [dset, dlookup, h1]
      · by_cases h1 : k0 = k1
        · subst h1
          have hne : ¬ k = k0 := fun h => h0 h.symm
          simp [dset, dlookup, h0, hne]
        · simp [dset, dlookup, h0, h1, ih]

theorem dlookup_dictUpdate {α : Type} (e d : List (String × α)) (k : String) :
    dlookup (dictUpdate d e) k =
      match dlookupLast e k with
      | some v => some v
      | none => dlookup d k := by
  induction e generalizing d with
  | nil =>
      simp [dictUpdate, dlookupLast]
  | cons hd tl ih =>
      obtain ⟨k0, v0⟩ := hd
      have step : dictUpdate d ((k0, v0) :: tl) = dictUpdate (dset d k0 v0) tl := by
        simp [dictUpdate, List.foldl]
      rw [step, ih]
      cases h : dlookupLast tl k with
      | some v1 =>
          simp [dlookupLast, h]
      | none =>
          by_cases hk : k0 = k <;> simp [dlookupLast, h, dlookup_dset, hk]

theorem dlookup_eq_none_of_not_mem {α : Type} (e : List (String × α))
    (k : String) (h : k ∉ e.map Prod.fst) : dlookup e k = none := by
  induction e with
  | nil => simp [dlookup]
  | cons hd tl ih =>
      obtain ⟨k0, v0⟩ := hd
      simp only [List.map_cons, List.mem_cons] at h
      push_neg at h
      have hne : k0 ≠ k := fun hk => h.1 hk.symm
      simp [dlookup, hne, ih h.2]

theorem dlookupLast_eq_dlookup_of_nodup {α : Type} (e : List (String × α))
    (k : String) (h : (e.map Prod.fst).Nodup) :
    dlookupLast e k = dlookup e k := by
  induction e with
  | nil => simp [dlookupLast, dlookup]
  | cons hd tl ih =>
      obtain ⟨k0, v0⟩ := hd
      simp only [List.map_cons, List.nodup_cons] at h
      by_cases hk : k0 = k
      · subst hk
        have : dlookup tl k0 = none :=
          dlookup_eq_none_of_not_mem tl k0 h.1
        rw [dlookupLast, ih h.2, this]
        simp [dlookup]
      · rw [dlookupLast, ih h.2]
        cases h1 : dlookup tl k with
        | some v1 => simp [dlookup, hk, h1]
        | none => simp [dlookup, hk, h1]

/-! ## Data model of `Application` (`application.py` lines 16-75)

Component constructor parameter values are opaque to the orchestrator; we
model them as `Nat`.  A component class is opaque except for the one property
the code inspects, `issubclass(component_class, Component)`, plus an identity
tag so that distinct classes are distinguishable values. -/

/-- A component class: `classId` is an opaque identity, `subclassOfComponent`
models `issubclass(component_class, Component)` (line 68). -/
structure CompClass where
  classId : Nat
  subclassOfComponent : Bool
  deriving DecidableEq, Repr

/-- A `pkg_resources` entry point.  Loading an entry point is deterministic
and side-effect free, so it is modelled by the class it loads to. -/
structure EntryPoint where
  loadResult : CompClass
  deriving DecidableEq, Repr

/-- `EntryPoint.load()` (line 66). -/
def EntryPoint.load (ep : EntryPoint) : CompClass :=
  ep.loadResult

/-- A value of the `self.component_types` dict: either a still-unloaded
`EntryPoint` (as populated by `__init__`, line 36) or the class stored back
after the first load (line 66).  Mirrors the
`isinstance(component_class, EntryPoint)` test on line 65. -/
inductive TypeEntry where
  | entryPoint (ep : EntryPoint)
  | loaded (c : CompClass)
  deriving DecidableEq, Repr

/-- Constructor keyword arguments / per-alias override parameters. -/
abbrev ConfigDict := List (String × Nat)

/-- A constructed component instance records which class was instantiated and
the merged configuration passed to the constructor (line 74). -/
structure ComponentInstance where
  cls : CompClass
  config : ConfigDict
  deriving DecidableEq, Repr

/-- The state of an `Application` object that `add_component` reads and
writes: the ordered instance list, the entry-point dict, the external
per-alias override configuration, and the worker-thread budget. -/
structure Application where
  components : List ComponentInstance
  component_types : List (String × TypeEntry)
  component_config : List (String × ConfigDict)
  max_threads : Int
  deriving DecidableEq, Repr

/-- Failures raised by `__init__` and `add_component`, named after the
spec's taxonomy.  `validationFailure` is the `assert` on line 33 and the
`TypeError` on line 58; `lookupFailure` is the `LookupError` on line 62;
`typeConformanceFailure` is the `TypeError` on line 69. -/
inductive Failure where
  | validationFailure
  | lookupFailure
  | typeConformanceFailure
  deriving DecidableEq, Repr

/-- `Application.__init__` (lines 31-40): asserts `max_threads > 0`, starts
with an empty instance list, takes the entry-point registry as found by
`iter_entry_points` and the external override configuration
(`components or {}`). -/
def Application.init (components : Option (List (String × ConfigDict)))
    (max_threads : Int) (entryPoints : List (String × EntryPoint)) :
    Except Failure Application :=
  if max_threads > 0 then
    .ok { components := []
          component_types := entryPoints.map fun p => (p.1, .entryPoint p.2)
          component_config := components.getD []
          max_threads := max_threads }
  else
    .error .validationFailure

/-- The `component_alias` argument: Python is untyped, so the caller may pass
a string or any other object (`isinstance(component_alias, str)`, line 57). -/
inductive AliasArg where
  | str (s : String)
  | nonString
  deriving DecidableEq, Repr

/-- Lines 60-66 of `add_component` for the `component_class is None` path:
look the alias up in `self.component_types` (raising `LookupError` when
absent), and if the stored value is still an `EntryPoint`, load it and store
the loaded class back into the dict.  The returned `Nat` counts how many
entry-point loads this call performed (0 or 1); it is instrumentation only
and carries no other information. -/
def resolveStep (types : List (String × TypeEntry)) (a : String) :
    Except Failure (CompClass × List (String × TypeEntry) × Nat) :=
  match dlookup types a with
  | none => .error .lookupFailure
  | some (.entryPoint ep) =>
      let c := ep.load
      .ok (c, dset types a (.loaded c), 1)
  | some (.loaded c) => .ok (c, types, 0)

/-- Lines 60-66 in full: when an explicit `component_class` is supplied the
registry is not consulted at all; otherwise the alias is resolved through
`resolveStep`. -/
def classForAlias (app : Application) (a : String)
    (componentClass : Option CompClass) :
    Except Failure (CompClass × List (String × TypeEntry) × Nat) :=
  match componentClass with
  | some c => .ok (c, app.component_types, 0)
  | none => resolveStep app.component_types a

/-- `Application.add_component` (lines 45-75).  Returns the updated
application state together with the entry-point load count from
`classForAlias`.  An `.error` result models the Python exception propagating
before any mutation of `self.components`. -/
def Application.add_component (app : Application) (component_alias : AliasArg)
    (componentClass : Option CompClass) (component_kwargs : ConfigDict) :
    Except Failure (Application × Nat) :=
  match component_alias with
  | .nonString => .error .validationFailure
  | .str a =>
      if a = "" then .error .validationFailure
      else
        match classForAlias app a componentClass with
        | .error e => .error e
        | .ok (c, types, loads) =>
            if c.subclassOfComponent then
              let merged :=
                dictUpdate component_kwargs
                  ((dlookup app.component_config a).getD [])
              .ok ({ app with
                      components := app.components ++ [⟨c, merged⟩]
                      component_types := types }, loads)
            else .error .typeConformanceFailure

/-- The instance list observed by the caller after an `add_component` call:
on an exception (`.error`) the Python object is left unmodified. -/
def componentsAfter (app : Application) (component_alias : AliasArg)
    (componentClass : Option CompClass) (component_kwargs : ConfigDict) :
    List ComponentInstance :=
  match app.add_component component_alias componentClass component_kwargs with
  | .ok (app1, _) => app1.components
  | .error _ => app.components

/-! ## The `run` lifecycle (`application.py` lines 84-126)

`run` drives external collaborators: the components' `start` coroutines
gathered on line 103, the application's own `start` hook awaited on lines
107-109, the STARTED-callback dispatch awaited on line 112, and the
`run_forever` serve loop on line 120.  Each of these may raise; the
environment `RunEnv` fixes every such outcome, and `run` maps an environment
to the sequence of observable actions the method performs together with the
final `context.exception` field and any exception escaping `run`. -/

/-- An opaque Python exception value. -/
abbrev Exc := Nat

/-- Outcome of awaiting one startup-phase operation. -/
inductive StartOutcome where
  | ok
  | fails (e : Exc)
  deriving DecidableEq, Repr

/-- How `event_loop.run_forever()` (line 120) ends: with the recognized
termination signal (`KeyboardInterrupt` / `SystemExit`, caught on line 121)
or with any other exception (not caught). -/
inductive ServeOutcome where
  | terminationSignal
  | crash (e : Exc)
  deriving DecidableEq, Repr

/-- The outcomes of all external calls a single `run` invocation makes. -/
structure RunEnv where
  /-- Per-component outcome of `component.start(context)`, in registration
  order, as observed by the `asyncio.gather` join on line 103. -/
  componentStarts : List StartOutcome
  /-- Outcome of the application's own `start` hook (lines 107-109). -/
  appStart : StartOutcome
  /-- Outcome of `context.run_callbacks(ContextEventType.started)`. -/
  startedCallbacks : StartOutcome
  /-- How the serve loop ends, when it is reached. -/
  serve : ServeOutcome
  deriving DecidableEq, Repr

/-- The observable actions of `run`, in order. -/
inductive RunEvent where
  /-- `self.logger.info('Starting components')` and the gather on line 103. -/
  | componentStartsAwaited
  /-- The application's `start` hook was run (lines 107-109). -/
  | appStartAwaited
  /-- `context.run_callbacks(ContextEventType.started)` was awaited. -/
  | startedCallbacksAwaited
  /-- `self.logger.exception('Error during application startup')`. -/
  | logStartupError
  /-- `context.exception = exc` (line 116). -/
  | setContextException (e : Exc)
  /-- `event_loop.run_forever()` was entered (line 120): the serve phase. -/
  | serveLoop
  /-- `context.run_callbacks(ContextEventType.finished)` was awaited. -/
  | finishedCallbacksAwaited
  /-- `event_loop.close()` (line 125). -/
  | loopClose
  deriving DecidableEq, Repr

/-- The result of the `asyncio.gather` join over the component `start`
coroutines: succeeds when every operation succeeded, otherwise surfaces a
failure (the first failing entry). -/
def gatherOutcome : List StartOutcome → StartOutcome
  | [] => .ok
  | .ok :: rest => gatherOutcome rest
  | .fails e :: _ => .fails e

/-- The `try` block of `run` (lines 98-113): the actions performed and the
exception caught by the `except Exception` handler, if any. -/
def startupPhase (env : RunEnv) : List RunEvent × Option Exc :=
  match gatherOutcome env.componentStarts with
  | .fails e => ([.componentStartsAwaited], some e)
  | .ok =>
      match env.appStart with
      | .fails e => ([.componentStartsAwaited, .appStartAwaited], some e)
      | .ok =>
          match env.startedCallbacks with
          | .fails e =>
              ([.componentStartsAwaited, .appStartAwaited,
                .startedCallbacksAwaited], some e)
          | .ok =>
              ([.componentStartsAwaited, .appStartAwaited,
                .startedCallbacksAwaited], none)

/-- What a `run` invocation leaves behind. -/
structure RunResult where
  /-- The observable actions, in execution order. -/
  trace : List RunEvent
  /-- The final value of `context.exception`. -/
  contextException : Option Exc
  /-- An exception propagating out of `run`, if any. -/
  escaped : Option Exc
  deriving DecidableEq, Repr

/-- `Application.run` (lines 84-126) as a function of the collaborator
outcomes.  On a startup failure the handler on lines 114-116 logs and stores
the exception and the serve phase is skipped; on startup success the serve
loop runs until the termination signal (after which shutdown proceeds) or
until some other exception escapes.  The FINISHED-callback dispatch and
`event_loop.close()` on lines 124-125 run on every path that leaves the
`try`/`except`/`else` statement normally. -/
def Application.runModel (env : RunEnv) : RunResult :=
  match startupPhase env with
  | (tr, some e) =>
      { trace := tr ++ [.logStartupError, .setContextException e,
                        .finishedCallbacksAwaited, .loopClose]
        contextException := some e
        escaped := none }
  | (tr, none) =>
      match env.serve with
      | .terminationSignal =>
          { trace := tr ++ [.serveLoop, .finishedCallbacksAwaited, .loopClose]
            contextException := none
            escaped := none }
      | .crash e =>
          { trace := tr ++ [.serveLoop]
            contextException := none
            escaped := some e }

/-- The exception the startup phase raises in environment `env`, if any. -/
def startupExc (env : RunEnv) : Option Exc :=
  (startupPhase env).2

/-- Recognizer for the `context.exception = exc` write event. -/
def RunEvent.isSetContextException : RunEvent → Bool
  | .setContextException _ => true
  | _ => false

/-- Recognizer for the FINISHED-callback dispatch event. -/
def RunEvent.isFinishedCallbacks : RunEvent → Bool
  | .finishedCallbacksAwaited => true
  | _ => false

/-! ## Helper lemmas about the startup trace -/

theorem startupPhase_trace_subset (env : RunEnv) (ev : RunEvent)
    (h : ev ∈ (startupPhase env).1) :
    ev = .componentStartsAwaited ∨ ev = .appStartAwaited ∨
      ev = .startedCallbacksAwaited := by
  rcases hg : gatherOutcome env.componentStarts with _ | e0 <;>
    rcases ha : env.appStart with _ | e1 <;>
      rcases hs : env.startedCallbacks with _ | e2 <;>
        simp [startupPhase, hg, ha, hs] at h <;> tauto

theorem startupPhase_no_serve (env : RunEnv) :
    RunEvent.serveLoop ∉ (startupPhase env).1 := by
  intro h
  rcases startupPhase_trace_subset env _ h with h1 | h1 | h1 <;> cases h1

theorem startupPhase_countP_finished (env : RunEnv) :
    (startupPhase env).1.countP RunEvent.isFinishedCallbacks = 0 := by
  rw [List.countP_eq_zero]
  intro ev hev
  rcases startupPhase_trace_subset env ev hev with h1 | h1 | h1 <;>
    subst h1 <;> decide

theorem startupPhase_countP_setException (env : RunEnv) :
    (startupPhase env).1.countP RunEvent.isSetContextException = 0 := by
  rw [List.countP_eq_zero]
  intro ev hev
  rcases startupPhase_trace_subset env ev hev with h1 | h1 | h1 <;>
    subst h1 <;> decide

/-! ## Claims about the `run` lifecycle -/

/-- C1: whenever a startup-phase operation (a component `start`, the
application start hook, or the STARTED-event dispatch) fails, the failure
does not escape `run`: it is stored in `context.exception`, logged via
`logger.exception`, and the serve phase (`run_forever`) is never entered. -/
theorem startup_failure_captured_and_serve_skipped (env : RunEnv) (e : Exc)
    (h : startupExc env = some e) :
    (Application.runModel env).escaped = none ∧
    (Application.runModel env).contextException = some e ∧
    RunEvent.logStartupError ∈ (Application.runModel env).trace ∧
    RunEvent.serveLoop ∉ (Application.runModel env).trace := by
  have hnm := startupPhase_no_serve env
  rcases hp : startupPhase env with ⟨tr, exc⟩
  have hexc : exc = some e := by
    have h1 := h
    unfold startupExc at h1
    rw [hp] at h1
    exact h1
  subst hexc
  rw [hp] at hnm
  simp only at hnm
  simp only [Application.runModel, hp]
  refine ⟨by trivial, by trivial, by simp, ?_⟩
  intro hmem
  rcases List.mem_append.mp hmem with hmem | hmem
  · exact hnm hmem
  · simp at hmem

theorem startup_failure_captured_and_serve_skipped_witness :
    (Application.runModel ⟨[.fails 7], .ok, .ok, .terminationSignal⟩).escaped
        = none ∧
    (Application.runModel
        ⟨[.fails 7], .ok, .ok, .terminationSignal⟩).contextException = some 7 ∧
    RunEvent.logStartupError ∈
      (Application.runModel ⟨[.fails 7], .ok, .ok, .terminationSignal⟩).trace ∧
    RunEvent.serveLoop ∉
      (Application.runModel ⟨[.fails 7], .ok, .ok, .terminationSignal⟩).trace :=
  startup_failure_captured_and_serve_skipped
    ⟨[.fails 7], .ok, .ok, .terminationSignal⟩ 7 (by decide)

/-- C2: on every `run` in which startup failed or the serve loop ended with
the recognized termination signal, the FINISHED callbacks are dispatched
exactly once, and `event_loop.close()` follows that dispatch at the very end
of the trace. -/
theorem finished_callbacks_once_then_close (env : RunEnv)
    (h : startupExc env ≠ none ∨ env.serve = ServeOutcome.terminationSignal) :
    (Application.runModel env).trace.countP RunEvent.isFinishedCallbacks = 1 ∧
    ∃ pre, (Application.runModel env).trace =
      pre ++ [RunEvent.finishedCallbacksAwaited, RunEvent.loopClose] := by
  have hzero := startupPhase_countP_finished env
  rcases hp : startupPhase env with ⟨tr, exc⟩
  rw [hp] at hzero
  simp only at hzero
  cases exc with
  | some e =>
      simp only [Application.runModel, hp]
      constructor
      · simp [List.countP_append, hzero, List.countP_cons,
              RunEvent.isFinishedCallbacks]
      · exact ⟨tr ++ [.logStartupError, .setContextException e], by simp⟩
  | none =>
      have hsig : env.serve = ServeOutcome.terminationSignal := by
        rcases h with h | h
        · exfalso
          apply h
          unfold startupExc
          rw [hp]
        · exact h
      simp only [Application.runModel, hp, hsig]
      constructor
      · simp [List.countP_append, hzero, List.countP_cons,
              RunEvent.isFinishedCallbacks]
      · exact ⟨tr ++ [.serveLoop], by simp⟩

theorem finished_callbacks_once_then_close_witness :
    (Application.runModel
        ⟨[.ok], .fails 3, .ok, .terminationSignal⟩).trace.countP
      RunEvent.isFinishedCallbacks = 1 ∧
    ∃ pre, (Application.runModel
        ⟨[.ok], .fails 3, .ok, .terminationSignal⟩).trace =
      pre ++ [RunEvent.finishedCallbacksAwaited, RunEvent.loopClose] :=
  finished_callbacks_once_then_close
    ⟨[.ok], .fails 3, .ok, .terminationSignal⟩ (Or.inl (by decide))

/-- C9: after any `run`, `context.exception` is empty exactly when no
startup-phase operation failed, and the field is written at most once. -/
theorem context_exception_iff_startup_failure (env : RunEnv) :
    ((Application.runModel env).contextException = none ↔
      startupExc env = none) ∧
    (Application.runModel env).trace.countP RunEvent.isSetContextException
      ≤ 1 := by
  have hzero := startupPhase_countP_setException env
  have hstart : startupExc env = (startupPhase env).2 := rfl
  rcases hp : startupPhase env with ⟨tr, exc⟩
  rw [hp] at hzero hstart
  simp only at hzero hstart
  cases exc with
  | some e =>
      simp [Application.runModel, hp, hstart, List.countP_append, hzero,
            List.countP_cons, RunEvent.isSetContextException]
  | none =>
      cases hserve : env.serve <;>
        simp [Application.runModel, hp, hstart, hserve, List.countP_append,
              hzero, List.countP_cons, RunEvent.isSetContextException]

/-! ## Sample values used by the witnesses -/

/-- A class that is a proper `Component` subclass. -/
def sampleClass : CompClass :=
  { classId := 0, subclassOfComponent := true }

/-- A class that does not subclass `Component`. -/
def badClass : CompClass :=
  { classId := 1, subclassOfComponent := false }

/-- An entry point loading to `sampleClass`. -/
def sampleEntryPoint : EntryPoint :=
  { loadResult := sampleClass }

/-- An application with one registered entry point `"db"` and an override
configuration for that alias. -/
def sampleApp : Application :=
  { components := []
    component_types := [("db", .entryPoint sampleEntryPoint)]
    component_config := [("db", [("host", 2)])]
    max_threads := 8 }

/-- An application whose entry-point registry is empty. -/
def emptyApp : Application :=
  { components := []
    component_types := []
    component_config := []
    max_threads := 8 }

/-! ## Claims about construction and registration -/

/-- C8: constructing an `Application` with a non-positive `max_threads`
fails the `assert` (a validation failure); with any positive budget the
construction succeeds and stores the budget unchanged. -/
theorem init_requires_positive_max_threads
    (components : Option (List (String × ConfigDict))) (max_threads : Int)
    (entryPoints : List (String × EntryPoint)) :
    (max_threads ≤ 0 →
      Application.init components max_threads entryPoints =
        .error .validationFailure) ∧
    (0 < max_threads →
      ∃ app, Application.init components max_threads entryPoints = .ok app ∧
        app.max_threads = max_threads) := by
  constructor
  · intro h
    have h1 : ¬ max_threads > 0 := by omega
    simp [Application.init, h1]
  · intro h
    exact ⟨{ components := []
             component_types := entryPoints.map fun p => (p.1, .entryPoint p.2)
             component_config := components.getD []
             max_threads := max_threads },
           by simp [Application.init, h], rfl⟩

theorem init_requires_positive_max_threads_witness :
    (Application.init none (-1) [] = .error .validationFailure) ∧
    ∃ app, Application.init none 5 [] = .ok app ∧ app.max_threads = 5 :=
  ⟨(init_requires_positive_max_threads none (-1) []).1 (by decide),
   (init_requires_positive_max_threads none 5 []).2 (by decide)⟩

/-- C5: `add_component` with an empty-string or non-string alias raises the
validation failure of line 58 and leaves the instance list unchanged. -/
theorem invalid_alias_validation_failure (app : Application)
    (component_alias : AliasArg) (componentClass : Option CompClass)
    (component_kwargs : ConfigDict)
    (h : component_alias = .nonString ∨ component_alias = .str "") :
    app.add_component component_alias componentClass component_kwargs =
      .error .validationFailure ∧
    componentsAfter app component_alias componentClass component_kwargs =
      app.components := by
  rcases h with h | h <;> subst h <;>
    simp [Application.add_component, componentsAfter]

theorem invalid_alias_validation_failure_witness :
    sampleApp.add_component (.str "") none [] = .error .validationFailure ∧
    componentsAfter sampleApp (.str "") none [] = sampleApp.components :=
  invalid_alias_validation_failure sampleApp (.str "") none [] (Or.inr rfl)

/-- C6: `add_component` with a non-empty string alias, no explicit class,
and an alias absent from the entry-point registry raises the lookup failure
of line 62 and leaves the instance list unchanged. -/
theorem unknown_alias_lookup_failure (app : Application) (a : String)
    (component_kwargs : ConfigDict) (h1 : a ≠ "")
    (h2 : dlookup app.component_types a = none) :
    app.add_component (.str a) none component_kwargs =
      .error .lookupFailure ∧
    componentsAfter app (.str a) none component_kwargs = app.components := by
  simp [Application.add_component, componentsAfter, classForAlias,
        resolveStep, h1, h2]

theorem unknown_alias_lookup_failure_witness :
    sampleApp.add_component (.str "nope") none [] = .error .lookupFailure ∧
    componentsAfter sampleApp (.str "nope") none [] = sampleApp.components :=
  unknown_alias_lookup_failure sampleApp "nope" [] (by decide) (by decide)

/-- C7: when the explicitly supplied or registry-resolved class is not a
`Component` subclass, `add_component` raises the type-conformance failure of
line 69 and leaves the instance list unchanged. -/
theorem nonconforming_class_type_failure (app : Application) (a : String)
    (componentClass : Option CompClass) (component_kwargs : ConfigDict)
    (c : CompClass) (types : List (String × TypeEntry)) (loads : Nat)
    (h1 : a ≠ "")
    (h2 : classForAlias app a componentClass = .ok (c, types, loads))
    (h3 : c.subclassOfComponent = false) :
    app.add_component (.str a) componentClass component_kwargs =
      .error .typeConformanceFailure ∧
    componentsAfter app (.str a) componentClass component_kwargs =
      app.components := by
  simp [Application.add_component, componentsAfter, h1, h2, h3]

theorem nonconforming_class_type_failure_witness :
    sampleApp.add_component (.str "x") (some badClass) [] =
      .error .typeConformanceFailure ∧
    componentsAfter sampleApp (.str "x") (some badClass) [] =
      sampleApp.components :=
  nonconforming_class_type_failure sampleApp "x" (some badClass) []
    badClass sampleApp.component_types 0 (by decide) rfl rfl

/-- C10: when an explicit class is supplied, the registry is never consulted
(zero entry-point loads) and the `component_types` cache is unchanged; the
call succeeds for any conforming class regardless of the registry contents,
appending the instance built from the merged configuration. -/
theorem explicit_class_skips_registry (app : Application) (a : String)
    (c : CompClass) (component_kwargs : ConfigDict)
    (h1 : a ≠ "") (h2 : c.subclassOfComponent = true) :
    ∃ app1,
      app.add_component (.str a) (some c) component_kwargs = .ok (app1, 0) ∧
      app1.component_types = app.component_types ∧
      app1.components = app.components ++
        [⟨c, dictUpdate component_kwargs
            ((dlookup app.component_config a).getD [])⟩] := by
  refine ⟨{ app with
            components := app.components ++
              [⟨c, dictUpdate component_kwargs
                  ((dlookup app.component_config a).getD [])⟩]
            component_types := app.component_types },
          ?_, rfl, rfl⟩
  simp [Application.add_component, classForAlias, h1, h2]

theorem explicit_class_skips_registry_witness :
    ∃ app1,
      emptyApp.add_component (.str "x") (some sampleClass) [("port", 9)] =
        .ok (app1, 0) ∧
      app1.component_types = emptyApp.component_types ∧
      app1.components = emptyApp.components ++
        [⟨sampleClass, dictUpdate [("port", 9)]
            ((dlookup emptyApp.component_config "x").getD [])⟩] :=
  explicit_class_skips_registry emptyApp "x" sampleClass [("port", 9)]
    (by decide) rfl

/-- C4: a successful resolution performs at most one entry-point load, and
resolving again from the state it produced returns the very same class with
zero further loads and an unchanged cache. -/
theorem resolve_caches_after_first_load (types : List (String × TypeEntry))
    (a : String) (c : CompClass) (types1 : List (String × TypeEntry))
    (n : Nat) (h : resolveStep types a = .ok (c, types1, n)) :
    n ≤ 1 ∧ resolveStep types1 a = .ok (c, types1, 0) := by
  unfold resolveStep at h
  cases hl : dlookup types a with
  | none =>
      rw [hl] at h
      cases h
  | some entry =>
      cases entry with
      | entryPoint ep =>
          rw [hl] at h
          simp only [EntryPoint.load, Except.ok.injEq, Prod.mk.injEq] at h
          obtain ⟨hc, ht, hn⟩ := h
          subst hc
          subst ht
          subst hn
          refine ⟨by omega, ?_⟩
          unfold resolveStep
          rw [dlookup_dset]
          simp
      | loaded c0 =>
          rw [hl] at h
          simp only [Except.ok.injEq, Prod.mk.injEq] at h
          obtain ⟨hc, ht, hn⟩ := h
          subst hc
          subst ht
          subst hn
          refine ⟨by omega, ?_⟩
          unfold resolveStep
          rw [hl]

theorem resolve_caches_after_first_load_witness :
    (1 : Nat) ≤ 1 ∧
    resolveStep [("db", TypeEntry.loaded sampleClass)] "db" =
      .ok (sampleClass, [("db", TypeEntry.loaded sampleClass)], 0) :=
  resolve_caches_after_first_load
    [("db", .entryPoint sampleEntryPoint)] "db" sampleClass
    [("db", .loaded sampleClass)] 1 rfl

/-- C3: for a non-empty alias with local keyword parameters and a registered
override mapping, the configuration handed to the component constructor is
the local parameters updated with the overrides: on a key collision the
override value wins, and any key bound on only one side keeps its value. -/
theorem merged_config_override_wins (app : Application) (a : String)
    (componentClass : Option CompClass) (component_kwargs ov : ConfigDict)
    (c : CompClass) (types : List (String × TypeEntry)) (loads : Nat)
    (h1 : a ≠ "")
    (h2 : dlookup app.component_config a = some ov)
    (h3 : classForAlias app a componentClass = .ok (c, types, loads))
    (h4 : c.subclassOfComponent = true)
    (h5 : (ov.map Prod.fst).Nodup) :
    ∃ app1 n,
      app.add_component (.str a) componentClass component_kwargs =
        .ok (app1, n) ∧
      app1.components =
        app.components ++ [⟨c, dictUpdate component_kwargs ov⟩] ∧
      ∀ k, dlookup (dictUpdate component_kwargs ov) k =
        match dlookup ov k with
        | some v => some v
        | none => dlookup component_kwargs k := by
  refine ⟨{ app with
            components :=
              app.components ++ [⟨c, dictUpdate component_kwargs ov⟩]
            component_types := types },
          loads, ?_, rfl, ?_⟩
  · simp [Application.add_component, h1, h2, h3, h4]
  · intro k
    rw [dlookup_dictUpdate, dlookupLast_eq_dlookup_of_nodup ov k h5]
    cases dlookup ov k <;> rfl

theorem merged_config_override_wins_witness :
    ∃ app1 n,
      sampleApp.add_component (.str "db") (some sampleClass)
          [("host", 1), ("port", 5)] = .ok (app1, n) ∧
      app1.components = sampleApp.components ++
        [⟨sampleClass, dictUpdate [("host", 1), ("port", 5)] [("host", 2)]⟩] ∧
      ∀ k, dlookup (dictUpdate [("host", 1), ("port", 5)] [("host", 2)]) k =
        match dlookup [("host", 2)] k with
        | some v => some v
        | none => dlookup [("host", 1), ("port", 5)] k :=
  merged_config_override_wins sampleApp "db" (some sampleClass)
    [("host", 1), ("port", 5)] [("host", 2)] sampleClass
    sampleApp.component_types 0 (by decide) (by decide) rfl rfl (by decide)

end Asphalt
